import Mathlib

/-!
# Verification of the gpio-buzzer driver (src/gpio_buzzer/gpio-buzzer.c)

Shallow embedding of the driver's state and operations. The shared device
state `struct miscbuzzer_dev` is modelled by `MiscbuzzerDev`, together with
the physical GPIO line level (written through `gpio_set_value`). The four
operations on that state — `miscbuzzer_open`, `miscbuzzer_write`,
`miscbuzzer_release`, `buzzer_store` — and the read-out `buzzer_show` and
the probe initialisation `gpio_buzzer_probe` are translated line by line
from the C source. Locking structure is modelled separately as event
traces (`Ev`), one trace function per operation, recording lock/unlock and
every mutation of the shared state in program order.
-/

namespace GpioBuzzer

/-- `#define BUZZEROFF 0` -/
def BUZZEROFF : Nat := 0

/-- `#define BUZZERON 1` -/
def BUZZERON : Nat := 1

/-- `#define GPIO_OUTPUT 1` (also used as the initial value argument of
`gpio_direction_output` in the probe). -/
def GPIO_OUTPUT : Nat := 1

/-- `#define GPIO_HIGH 1` -/
def GPIO_HIGH : Nat := 1

/-- `#define GPIO_LOW 0` -/
def GPIO_LOW : Nat := 0

/-- `#define DEV_BUSY 1` -/
def DEV_BUSY : Nat := 1

/-- `#define DEV_FREE 0` -/
def DEV_FREE : Nat := 0

/-- Linux `-EBUSY` magnitude. -/
def EBUSY : Nat := 16

/-- Linux `-EFAULT` magnitude. -/
def EFAULT : Nat := 14

/-- The shared device state of `struct miscbuzzer_dev` (the singleton
global `miscbuzzer`), plus the physical level of the GPIO output line.
`buzzer_stats` is the logical on/off state, `dev_stats` the busy/free
session flag, `line` the last level driven onto the hardware line by
`gpio_set_value` (kernel GPIO level write, an external primitive modelled
as a field update). The `device` pointer and the `spinlock_t` itself carry
no data and are not fields; the lock is modelled by the event traces
below. -/
structure MiscbuzzerDev where
  buzzer_stats : Nat
  dev_stats : Nat
  line : Nat
  deriving Repr, DecidableEq

/-- Conversion of an unsigned value to a C `int` (32-bit two's
complement), as in `int retvalue = copy_from_user(...)` where
`copy_from_user` returns `unsigned long`. -/
def toInt32 (n : Nat) : Int :=
  let m : Nat := n % 2 ^ 32
  if m < 2 ^ 31 then (m : Int) else (m : Int) - 2 ^ 32

/-- Outcome of the `copy_from_user(databuf, buf, cnt)` call in
`miscbuzzer_write` (external user-space copy primitive): `uncopied` is its
return value, the number of bytes that could not be copied (`0` on full
success), and `byte0` is the content of `databuf[0]` after the call
(the transferred byte on success, the stack garbage left in the
uninitialised buffer on failure). -/
structure CopyResult where
  uncopied : Nat
  byte0 : Nat
  deriving Repr, DecidableEq

/-- `miscbuzzer_open` (gpio-buzzer.c lines 54-72): under the lock, if
`dev_stats == DEV_BUSY` return `-EBUSY` without mutating; otherwise set
`dev_stats = DEV_BUSY` and return 0. Returns (return value, new state). -/
def miscbuzzer_open (d : MiscbuzzerDev) : Int × MiscbuzzerDev :=
  if d.dev_stats = DEV_BUSY then (-(EBUSY : Int), d)
  else (0, { d with dev_stats := DEV_BUSY })

/-- `miscbuzzer_write` (gpio-buzzer.c lines 74-97):
`retvalue = copy_from_user(...)`; if `retvalue < 0` return `-EFAULT`
(note `retvalue` receives an unsigned count, truncated to `int`);
otherwise read `buzzerstat = databuf[0]` (an `unsigned char`) and, for
`BUZZERON`, drive the line `GPIO_LOW` and set `buzzer_stats = BUZZERON`;
for `BUZZEROFF`, drive `GPIO_HIGH` and set `buzzer_stats = BUZZEROFF`;
any other byte falls through both branches; return 0. No lock is taken
in this function. -/
def miscbuzzer_write (cr : CopyResult) (d : MiscbuzzerDev) : Int × MiscbuzzerDev :=
  let retvalue := toInt32 cr.uncopied
  if retvalue < 0 then (-(EFAULT : Int), d)
  else
    let buzzerstat := cr.byte0 % 256
    if buzzerstat = BUZZERON then
      (0, { d with line := GPIO_LOW, buzzer_stats := BUZZERON })
    else if buzzerstat = BUZZEROFF then
      (0, { d with line := GPIO_HIGH, buzzer_stats := BUZZEROFF })
    else (0, d)

/-- `miscbuzzer_release` (gpio-buzzer.c lines 99-112): under the lock, if
`dev_stats == DEV_BUSY` set it to `DEV_FREE`; always return 0. -/
def miscbuzzer_release (d : MiscbuzzerDev) : Int × MiscbuzzerDev :=
  if d.dev_stats = DEV_BUSY then (0, { d with dev_stats := DEV_FREE })
  else (0, d)

/-- `buzzer_show` (gpio-buzzer.c lines 127-130):
`sprintf(buf, "%u\n", miscbuzzer.buzzer_stats)` — the status text. -/
def buzzer_show (d : MiscbuzzerDev) : String :=
  toString d.buzzer_stats ++ "\n"

/-- Model of the kernel helper `kstrtoul(buf, 10, &state)` (external
parsing primitive, lib/kstrtox.c): skip an optional leading plus sign,
require at least one decimal digit, accept one optional trailing newline
and nothing after it, and fail on overflow past `unsigned long`
(2^64 - 1). Returns `some value` on success, `none` on failure (in which
case `state` is left untouched). -/
def parseDecAux : List Char → Nat → Option Nat
  | [], acc => some acc
  | c :: cs, acc =>
    if c.isDigit then parseDecAux cs (10 * acc + (c.toNat - 48))
    else none

def kstrtoul10 (s : String) : Option Nat :=
  let cs := s.toList
  let cs := match cs with
    | '+' :: rest => rest
    | other => other
  let cs := if cs.getLast? = some '\n' then cs.dropLast else cs
  match cs with
  | [] => none
  | _ =>
    match parseDecAux cs 0 with
    | none => none
    | some v => if v < 2 ^ 64 then some v else none

/-- The value of the local `unsigned long state` after the
`kstrtoul(buf, 10, &state)` call in `buzzer_store`: the parsed value on
success; on failure `state` keeps its uninitialised stack content,
modelled by the arbitrary `junk`. -/
def storedState (buf : String) (junk : Nat) : Nat :=
  match kstrtoul10 buf with
  | some v => v
  | none => junk

/-- `buzzer_store` (gpio-buzzer.c lines 132-164): under the lock, if
`dev_stats == DEV_BUSY` return `-EBUSY` without mutating; otherwise set
`dev_stats = DEV_BUSY`, call `kstrtoul(buf, 10, &state)` (its return
value is stored in `ret` but immediately dead; on parse failure `state`
keeps its uninitialised stack value, modelled by `junk`), apply the same
ON/OFF mapping as the session write, set `dev_stats = DEV_FREE`, and
return `ret = size`. `size` is the byte count passed by sysfs. -/
def buzzer_store (buf : String) (junk : Nat) (size : Nat)
    (d : MiscbuzzerDev) : Int × MiscbuzzerDev :=
  if d.dev_stats = DEV_BUSY then (-(EBUSY : Int), d)
  else
    let d1 : MiscbuzzerDev := { d with dev_stats := DEV_BUSY }
    let state : Nat := storedState buf junk
    let d2 : MiscbuzzerDev :=
      if state = BUZZERON then
        { d1 with line := GPIO_LOW, buzzer_stats := BUZZERON }
      else if state = BUZZEROFF then
        { d1 with line := GPIO_HIGH, buzzer_stats := BUZZEROFF }
      else d1
    let d3 : MiscbuzzerDev := { d2 with dev_stats := DEV_FREE }
    ((size : Int), d3)

/-- `gpio_buzzer_probe`, successful path (gpio-buzzer.c lines 182-224),
restricted to the shared-state effects: the global `miscbuzzer` has C
static storage, so `buzzer_stats` starts zero-initialised (`BUZZEROFF`);
the probe sets `dev_stats = DEV_FREE`, calls
`gpio_direction_output(gpio, GPIO_OUTPUT)` which drives the initial value
`GPIO_OUTPUT` (= 1) onto the line, then, if the hardware description has
a `default-state` string, drives `GPIO_LOW` when it equals `"on"` and
`GPIO_HIGH` otherwise. `buzzer_stats` is not written anywhere in the
probe. `line0` is the level the hardware line happened to have before the
probe. -/
def gpio_buzzer_probe (default_state : Option String) (line0 : Nat) :
    MiscbuzzerDev :=
  let d : MiscbuzzerDev :=
    { buzzer_stats := BUZZEROFF, dev_stats := DEV_FREE, line := line0 }
  let d := { d with line := GPIO_OUTPUT }
  match default_state with
  | some s =>
    if s = "on" then { d with line := GPIO_LOW }
    else { d with line := GPIO_HIGH }
  | none => d

/-! ## Lock-discipline model

Each operation is also rendered as the sequence of lock/unlock events and
shared-state mutations it performs, in program order, so that the claim
"every mutation happens inside the critical section of the single shared
lock" becomes a decidable property of the traces. -/

/-- An observable event of an operation on the shared state:
`spin_lock_irqsave` / `spin_unlock_irqrestore` on `miscbuzzer.lock`, a
store to `buzzer_stats` (the logical state), a store to `dev_stats` (the
session flag), or a `gpio_set_value` hardware-line write. -/
inductive Ev where
  | lock : Ev
  | unlock : Ev
  | setStats : Nat → Ev
  | setDev : Nat → Ev
  | gpioSet : Nat → Ev
  deriving Repr, DecidableEq

/-- Is the event a mutation of the shared device state or hardware line? -/
def isMutation : Ev → Bool
  | Ev.setStats _ => true
  | Ev.setDev _ => true
  | Ev.gpioSet _ => true
  | _ => false

/-- Every mutation event in the trace occurs while the lock depth is
positive (i.e. inside a critical section); `n` is the lock depth on
entry. -/
def mutationsLocked : List Ev → Nat → Bool
  | [], _ => true
  | Ev.lock :: es, n => mutationsLocked es (n + 1)
  | Ev.unlock :: es, n => mutationsLocked es (n - 1)
  | e :: es, n => (!isMutation e || decide (0 < n)) && mutationsLocked es n

/-- The physical level the driver pairs with a commanded logical value:
`BUZZERON` is driven as `GPIO_LOW`, anything else as `GPIO_HIGH`
(active-low wiring). -/
def levelFor (v : Nat) : Nat :=
  if v = BUZZERON then GPIO_LOW else GPIO_HIGH

/-- Every store to `buzzer_stats` in the trace is immediately preceded by
the `gpio_set_value` write of the matching physical level: a logical-state
change is committed together with its hardware write. -/
def pairedCommit : List Ev → Bool
  | [] => true
  | Ev.gpioSet l :: Ev.setStats v :: es =>
    decide (levelFor v = l) && pairedCommit es
  | Ev.setStats _ :: _ => false
  | _ :: es => pairedCommit es

/-- Event trace of `miscbuzzer_open` (lines 54-72): lock; if busy, no
mutation; else `dev_stats = DEV_BUSY`; unlock. -/
def miscbuzzer_open_trace (d : MiscbuzzerDev) : List Ev :=
  if d.dev_stats = DEV_BUSY then [Ev.lock, Ev.unlock]
  else [Ev.lock, Ev.setDev DEV_BUSY, Ev.unlock]

/-- Event trace of `miscbuzzer_write` (lines 74-97): no lock is ever
taken; after a copy whose `int`-truncated return is non-negative, the
ON/OFF branch performs `gpio_set_value` then the `buzzer_stats` store,
directly on the shared state. -/
def miscbuzzer_write_trace (cr : CopyResult) : List Ev :=
  if toInt32 cr.uncopied < 0 then []
  else if cr.byte0 % 256 = BUZZERON then
    [Ev.gpioSet GPIO_LOW, Ev.setStats BUZZERON]
  else if cr.byte0 % 256 = BUZZEROFF then
    [Ev.gpioSet GPIO_HIGH, Ev.setStats BUZZEROFF]
  else []

/-- Event trace of `miscbuzzer_release` (lines 99-112): lock; clear
`dev_stats` if busy; unlock. -/
def miscbuzzer_release_trace (d : MiscbuzzerDev) : List Ev :=
  if d.dev_stats = DEV_BUSY then [Ev.lock, Ev.setDev DEV_FREE, Ev.unlock]
  else [Ev.lock, Ev.unlock]

/-- Event trace of `buzzer_store` (lines 132-164): lock; if busy, no
mutation; else `dev_stats = DEV_BUSY`, the ON/OFF branch on the parsed
(or uninitialised) `state`, `dev_stats = DEV_FREE`; unlock. -/
def buzzer_store_trace (buf : String) (junk : Nat) (d : MiscbuzzerDev) :
    List Ev :=
  if d.dev_stats = DEV_BUSY then [Ev.lock, Ev.unlock]
  else
    [Ev.lock, Ev.setDev DEV_BUSY] ++
      (if storedState buf junk = BUZZERON then
        [Ev.gpioSet GPIO_LOW, Ev.setStats BUZZERON]
       else if storedState buf junk = BUZZEROFF then
         [Ev.gpioSet GPIO_HIGH, Ev.setStats BUZZEROFF]
       else []) ++
      [Ev.setDev DEV_FREE, Ev.unlock]

/-! ## Session-sequence model (for the exclusivity claim) -/

/-- A call on the exclusive session interface. -/
inductive SessOp where
  | openS : SessOp
  | closeS : SessOp
  deriving Repr, DecidableEq

/-- One session call on the device state, returning the call's result and
the state after it. -/
def sessStep (d : MiscbuzzerDev) : SessOp → Int × MiscbuzzerDev
  | SessOp.openS => miscbuzzer_open d
  | SessOp.closeS => miscbuzzer_release d

/-- Run a sequence of session calls, collecting each call's return value
and the final state. -/
def runSess : MiscbuzzerDev → List SessOp → List Int × MiscbuzzerDev
  | d, [] => ([], d)
  | d, op :: ops =>
    let r := sessStep d op
    let rest := runSess r.2 ops
    (r.1 :: rest.1, rest.2)

/-! ## Theorems -/

/-- Unfolding of the session write when the user copy fully succeeds and
delivers the byte `b`. -/
lemma miscbuzzer_write_success (b : Nat) (d : MiscbuzzerDev) :
    miscbuzzer_write ⟨0, b⟩ d =
      if b % 256 = BUZZERON then
        (0, { d with line := GPIO_LOW, buzzer_stats := BUZZERON })
      else if b % 256 = BUZZEROFF then
        (0, { d with line := GPIO_HIGH, buzzer_stats := BUZZEROFF })
      else (0, d) := by
  unfold miscbuzzer_write toInt32
  norm_num

/-- C1: a session write of byte 1 drives the line LOW and sets the
logical state to ON; a write of byte 0 drives the line HIGH and sets it
to OFF; any other byte value is a silent no-op returning 0, leaving the
logical state and the line unchanged. -/
theorem session_write_state_mapping :
    ∀ (d : MiscbuzzerDev) (b : Nat), b < 256 →
      (b = BUZZERON → miscbuzzer_write ⟨0, b⟩ d =
        (0, { d with line := GPIO_LOW, buzzer_stats := BUZZERON })) ∧
      (b = BUZZEROFF → miscbuzzer_write ⟨0, b⟩ d =
        (0, { d with line := GPIO_HIGH, buzzer_stats := BUZZEROFF })) ∧
      (b ≠ BUZZERON → b ≠ BUZZEROFF → miscbuzzer_write ⟨0, b⟩ d = (0, d)) := by
  intro d b hb
  have hmod : b % 256 = b := Nat.mod_eq_of_lt hb
  rw [miscbuzzer_write_success, hmod]
  refine ⟨fun h1 => ?_, fun h0 => ?_, fun h1 h0 => ?_⟩
  · simp [h1]
  · subst h0
    simp [BUZZERON, BUZZEROFF]
  · simp [h1, h0]

theorem session_write_state_mapping_witness :
    miscbuzzer_write ⟨0, 2⟩ { buzzer_stats := 0, dev_stats := 0, line := 1 } =
      (0, { buzzer_stats := 0, dev_stats := 0, line := 1 }) :=
  (session_write_state_mapping
      { buzzer_stats := 0, dev_stats := 0, line := 1 } 2 (by decide)).2.2
    (by decide) (by decide)

/-- C4 (code bug): a failed user copy is not rejected. `copy_from_user`
returns the non-negative count of bytes it could not copy, so the
`retvalue < 0` test never fires on failure: with 1 byte uncopied and
garbage `1` left in the uninitialised buffer, the write returns 0 (not
`-EFAULT`) and turns the buzzer on. -/
theorem failed_copy_still_mutates :
    miscbuzzer_write ⟨1, 1⟩ { buzzer_stats := 0, dev_stats := 0, line := 1 } =
      (0, { buzzer_stats := 1, dev_stats := 0, line := 0 }) ∧
    (0 : Int) ≠ -(EFAULT : Int) := by
  constructor
  · decide
  · decide

/-- C5 (code bug): probing with `default-state = "on"` drives the line
LOW but never writes `buzzer_stats`, so the status read reports "0"
(OFF) instead of ON; probing with no default-state leaves the status OFF
as claimed. -/
theorem probe_default_on_line_low_status_off :
    (gpio_buzzer_probe (some ("on")) 0).line = GPIO_LOW ∧
    (gpio_buzzer_probe (some ("on")) 0).buzzer_stats = BUZZEROFF ∧
    buzzer_show (gpio_buzzer_probe (some ("on")) 0) = ("0\n") ∧
    (gpio_buzzer_probe none 0).buzzer_stats = BUZZEROFF ∧
    buzzer_show (gpio_buzzer_probe none 0) = ("0\n") := by
  refine ⟨rfl, rfl, ?_, rfl, ?_⟩ <;> decide

/-- C8: a session release always returns 0, clears the BUSY flag when it
was set, is a no-op when called again, and never touches the logical
state or the hardware line. -/
theorem release_clears_busy_idempotent :
    ∀ d : MiscbuzzerDev,
      (d.dev_stats = DEV_BUSY →
        miscbuzzer_release d = (0, { d with dev_stats := DEV_FREE })) ∧
      (miscbuzzer_release d).1 = 0 ∧
      miscbuzzer_release (miscbuzzer_release d).2 =
        (0, (miscbuzzer_release d).2) ∧
      (miscbuzzer_release d).2.buzzer_stats = d.buzzer_stats ∧
      (miscbuzzer_release d).2.line = d.line := by
  intro d
  unfold miscbuzzer_release
  by_cases h : d.dev_stats = DEV_BUSY
  · simp [h, DEV_BUSY, DEV_FREE]
  · simp [h]

theorem release_clears_busy_idempotent_witness :
    miscbuzzer_release { buzzer_stats := 1, dev_stats := 1, line := 0 } =
      (0, { buzzer_stats := 1, dev_stats := 0, line := 0 }) :=
  (release_clears_busy_idempotent
      { buzzer_stats := 1, dev_stats := 1, line := 0 }).1 (by decide)

/-- C6: an attribute write while a session holds the device BUSY returns
`-EBUSY` and leaves the whole device state — logical state, session flag
and hardware line — untouched. -/
theorem attribute_write_busy_rejected :
    ∀ (buf : String) (junk size : Nat) (d : MiscbuzzerDev),
      d.dev_stats = DEV_BUSY →
      buzzer_store buf junk size d = (-(EBUSY : Int), d) := by
  intro buf junk size d hd
  unfold buzzer_store
  simp [hd]

theorem attribute_write_busy_rejected_witness :
    buzzer_store ("1") 0 1 { buzzer_stats := 0, dev_stats := 1, line := 1 } =
      (-(EBUSY : Int), { buzzer_stats := 0, dev_stats := 1, line := 1 }) :=
  attribute_write_busy_rejected ("1") 0 1
    { buzzer_stats := 0, dev_stats := 1, line := 1 } (by decide)

/-- C7: an attribute write with no active session whose text fails to
parse still clears the provisionally set BUSY flag and returns the
consumed byte count instead of an error. -/
theorem attribute_parse_fail_clears_busy :
    ∀ (buf : String) (junk size : Nat) (d : MiscbuzzerDev),
      d.dev_stats = DEV_FREE → kstrtoul10 buf = none →
      (buzzer_store buf junk size d).1 = (size : Int) ∧
      (buzzer_store buf junk size d).2.dev_stats = DEV_FREE := by
  intro buf junk size d hd hp
  have hnb : ¬ d.dev_stats = DEV_BUSY := by
    rw [hd]; decide
  unfold buzzer_store
  simp [hnb]

theorem attribute_parse_fail_clears_busy_witness :
    (buzzer_store ("x") 7 1
        { buzzer_stats := 0, dev_stats := 0, line := 1 }).1 = (1 : Int) ∧
    (buzzer_store ("x") 7 1
        { buzzer_stats := 0, dev_stats := 0, line := 1 }).2.dev_stats =
      DEV_FREE :=
  attribute_parse_fail_clears_busy ("x") 7 1
    { buzzer_stats := 0, dev_stats := 0, line := 1 } (by decide) (by decide)

/-- C9: with no active session, an attribute write of the text "1" sets
the logical state to ON (driving the line LOW) and returns the byte
count; a write of "0" sets it to OFF (line HIGH) and likewise returns
the byte count. The BUSY flag is FREE again on return. -/
theorem attribute_write_one_zero :
    ∀ (junk size : Nat) (d : MiscbuzzerDev), d.dev_stats = DEV_FREE →
      buzzer_store ("1") junk size d =
        ((size : Int),
          { d with buzzer_stats := BUZZERON, line := GPIO_LOW,
                   dev_stats := DEV_FREE }) ∧
      buzzer_store ("0") junk size d =
        ((size : Int),
          { d with buzzer_stats := BUZZEROFF, line := GPIO_HIGH,
                   dev_stats := DEV_FREE }) := by
  intro junk size d hd
  have hnb : ¬ d.dev_stats = DEV_BUSY := by
    rw [hd]; decide
  have hk1 : kstrtoul10 ("1") = some 1 := by decide
  have hk0 : kstrtoul10 ("0") = some 0 := by decide
  have h1 : storedState ("1") junk = 1 := by
    unfold storedState
    rw [hk1]
  have h0 : storedState ("0") junk = 0 := by
    unfold storedState
    rw [hk0]
  unfold buzzer_store
  rw [h1, h0]
  simp [hnb, BUZZERON, BUZZEROFF]

theorem attribute_write_one_zero_witness :
    buzzer_store ("1") 0 1 { buzzer_stats := 0, dev_stats := 0, line := 1 } =
      ((1 : Int), { buzzer_stats := 1, dev_stats := 0, line := 0 }) :=
  (attribute_write_one_zero 0 1
      { buzzer_stats := 0, dev_stats := 0, line := 1 } (by decide)).1

/-- C10: with no active session, an attribute write whose text parses to
a value other than 0 or 1 returns the full byte count and leaves the
device state exactly as it was (logical state and line unchanged, BUSY
flag FREE again). -/
theorem attribute_write_other_value_noop :
    ∀ (buf : String) (v junk size : Nat) (d : MiscbuzzerDev),
      d.dev_stats = DEV_FREE → kstrtoul10 buf = some v →
      v ≠ BUZZERON → v ≠ BUZZEROFF →
      buzzer_store buf junk size d = ((size : Int), d) := by
  intro buf v junk size d hd hp h1 h0
  obtain ⟨bs, ds, ln⟩ := d
  simp only [DEV_FREE] at hd
  subst hd
  have hnb : ¬ (MiscbuzzerDev.mk bs 0 ln).dev_stats = DEV_BUSY := by
    simp [DEV_BUSY]
  have hst : storedState buf junk = v := by
    unfold storedState
    rw [hp]
  unfold buzzer_store
  rw [hst]
  simp [hnb, h1, h0, DEV_FREE]

theorem attribute_write_other_value_noop_witness :
    buzzer_store ("2") 0 1 { buzzer_stats := 0, dev_stats := 0, line := 1 } =
      ((1 : Int), { buzzer_stats := 0, dev_stats := 0, line := 1 }) :=
  attribute_write_other_value_noop ("2") 2 0 1
    { buzzer_stats := 0, dev_stats := 0, line := 1 } (by decide) (by decide)
    (by decide) (by decide)

/-- While the device is BUSY, any sequence of further `open` calls (no
intervening `release`) returns `-EBUSY` on every call and leaves the
state untouched. -/
lemma runSess_busy_all_opens (ops : List SessOp) :
    ∀ d : MiscbuzzerDev, d.dev_stats = DEV_BUSY →
      (∀ op ∈ ops, op = SessOp.openS) →
      (runSess d ops).1.all (fun r => r = -(EBUSY : Int)) = true ∧
      (runSess d ops).2 = d := by
  induction ops with
  | nil =>
    intro d hd _
    exact ⟨rfl, rfl⟩
  | cons op ops ih =>
    intro d hd hall
    have hop : op = SessOp.openS := hall op (List.mem_cons_self _ _)
    subst hop
    have hstep : sessStep d SessOp.openS = (-(EBUSY : Int), d) := by
      unfold sessStep miscbuzzer_open
      simp [hd]
    have hrest := ih d hd (fun op hm => hall op (List.mem_cons_of_mem _ hm))
    unfold runSess
    rw [hstep]
    constructor
    · simp [List.all_cons, hrest.1]
    · exact hrest.2

/-- C2: an `open` while the device is BUSY returns `-EBUSY` and mutates
nothing; a successful `open` from FREE makes the device BUSY and every
further `open` before a `release` fails with `-EBUSY` without mutating
state (so at most one `open` succeeds while a session is un-released);
and a `release` followed immediately by an `open` always succeeds. -/
theorem session_open_exclusive :
    (∀ d : MiscbuzzerDev, d.dev_stats = DEV_BUSY →
        miscbuzzer_open d = (-(EBUSY : Int), d)) ∧
    (∀ (d : MiscbuzzerDev) (ops : List SessOp), d.dev_stats = DEV_FREE →
        (∀ op ∈ ops, op = SessOp.openS) →
        (miscbuzzer_open d).1 = 0 ∧
        (runSess (miscbuzzer_open d).2 ops).1.all
          (fun r => r = -(EBUSY : Int)) = true ∧
        (runSess (miscbuzzer_open d).2 ops).2 = (miscbuzzer_open d).2) ∧
    (∀ d : MiscbuzzerDev, (miscbuzzer_open (miscbuzzer_release d).2).1 = 0) := by
  refine ⟨?_, ?_, ?_⟩
  · intro d hd
    unfold miscbuzzer_open
    simp [hd]
  · intro d ops hd hall
    have hnb : ¬ d.dev_stats = DEV_BUSY := by
      rw [hd]; decide
    have hopen : miscbuzzer_open d = (0, { d with dev_stats := DEV_BUSY }) := by
      unfold miscbuzzer_open
      simp [hnb]
    rw [hopen]
    have h := runSess_busy_all_opens ops { d with dev_stats := DEV_BUSY } rfl hall
    exact ⟨rfl, h.1, h.2⟩
  · intro d
    unfold miscbuzzer_release miscbuzzer_open
    by_cases hd : d.dev_stats = DEV_BUSY
    · simp [hd, DEV_BUSY, DEV_FREE]
    · simp [hd]

theorem session_open_exclusive_witness :
    (runSess
        (miscbuzzer_open { buzzer_stats := 0, dev_stats := 0, line := 1 }).2
        [SessOp.openS, SessOp.openS]).1.all
      (fun r => r = -(EBUSY : Int)) = true :=
  (session_open_exclusive.2.1 { buzzer_stats := 0, dev_stats := 0, line := 1 }
      [SessOp.openS, SessOp.openS] (by decide) (by decide)).2.1

/-- C3 counterexample: a session write of byte 1 (with a fully
successful user copy) performs its `gpio_set_value` write and its
`buzzer_stats` mutation with the shared lock never taken —
`miscbuzzer_write` contains no `spin_lock_irqsave` at all — so the
claim that every mutation of the logical state occurs inside the
critical section of the shared lock fails on this concrete input. -/
theorem session_write_mutation_unlocked_cx :
    mutationsLocked (miscbuzzer_write_trace ⟨0, 1⟩) 0 = false ∧
    Ev.setStats BUZZERON ∈ miscbuzzer_write_trace ⟨0, 1⟩ ∧
    Ev.gpioSet GPIO_LOW ∈ miscbuzzer_write_trace ⟨0, 1⟩ ∧
    Ev.lock ∉ miscbuzzer_write_trace ⟨0, 1⟩ := by
  refine ⟨?_, ?_, ?_, ?_⟩ <;> decide

/-- C3 amended: the mutations performed by `miscbuzzer_open`,
`miscbuzzer_release` and `buzzer_store` all occur inside the critical
section of the single shared lock, and on the attribute path each
logical-state change is committed immediately together with its
matching hardware-level write under that lock; the session write path
also commits each logical-state change immediately together with its
matching hardware write, but it never acquires the lock, so its
mutations happen outside any critical section. -/
theorem lock_discipline_amended :
    ∀ (d : MiscbuzzerDev) (cr : CopyResult) (buf : String) (junk : Nat),
      mutationsLocked (miscbuzzer_open_trace d) 0 = true ∧
      mutationsLocked (miscbuzzer_release_trace d) 0 = true ∧
      mutationsLocked (buzzer_store_trace buf junk d) 0 = true ∧
      pairedCommit (buzzer_store_trace buf junk d) = true ∧
      Ev.lock ∉ miscbuzzer_write_trace cr ∧
      pairedCommit (miscbuzzer_write_trace cr) = true := by
  intro d cr buf junk
  refine ⟨?_, ?_, ?_, ?_, ?_, ?_⟩
  · unfold miscbuzzer_open_trace
    split <;> decide
  · unfold miscbuzzer_release_trace
    split <;> decide
  · unfold buzzer_store_trace
    split
    · decide
    · split
      · decide
      · split <;> decide
  · unfold buzzer_store_trace
    split
    · decide
    · split
      · decide
      · split <;> decide
  · unfold miscbuzzer_write_trace
    split
    · decide
    · split
      · decide
      · split <;> decide
  · unfold miscbuzzer_write_trace
    split
    · decide
    · split
      · decide
      · split <;> decide

end GpioBuzzer
